import Mathlib

/-!
Verification development for the TMDB-V2 movie bot (single source file
`tmdbv2.py`).  The Python code is shallowly embedded: JSON/Python values
become the inductive `JVal`, fallible operations (subscripting, attribute
access, iteration) return `Except Unit`, Python `None` is `JVal.jnull`,
and each database/API/formatting function of the source is translated to
a Lean definition of the same name.
-/

/-- A Python/JSON runtime value.  `jnull` is Python `None`; `jint`/`jfloat`
mirror Python's distinct `int` and `float` (a `jfloat` carries the exact
rational value of the IEEE-754 double the program holds). -/
inductive JVal : Type where
  | jnull : JVal
  | jbool : Bool → JVal
  | jint : Int → JVal
  | jfloat : Rat → JVal
  | jstr : String → JVal
  | jarr : List JVal → JVal
  | jobj : List (String × JVal) → JVal

mutual

/-- Decidable structural equality on `JVal` (structural recursion so that
concrete goals evaluate by `decide`). -/
def JVal.decEq : (a b : JVal) → Decidable (a = b)
  | .jnull, .jnull => isTrue rfl
  | .jbool a, .jbool b =>
    if h : a = b then isTrue (by rw [h]) else isFalse (fun hh => by cases hh; exact h rfl)
  | .jint a, .jint b =>
    if h : a = b then isTrue (by rw [h]) else isFalse (fun hh => by cases hh; exact h rfl)
  | .jfloat a, .jfloat b =>
    if h : a = b then isTrue (by rw [h]) else isFalse (fun hh => by cases hh; exact h rfl)
  | .jstr a, .jstr b =>
    if h : a = b then isTrue (by rw [h]) else isFalse (fun hh => by cases hh; exact h rfl)
  | .jarr xs, .jarr ys =>
    match JVal.decEqList xs ys with
    | isTrue h => isTrue (by rw [h])
    | isFalse h => isFalse (fun hh => by cases hh; exact h rfl)
  | .jobj xs, .jobj ys =>
    match JVal.decEqFields xs ys with
    | isTrue h => isTrue (by rw [h])
    | isFalse h => isFalse (fun hh => by cases hh; exact h rfl)
  | .jnull, .jbool _ => isFalse (fun h => by cases h)
  | .jnull, .jint _ => isFalse (fun h => by cases h)
  | .jnull, .jfloat _ => isFalse (fun h => by cases h)
  | .jnull, .jstr _ => isFalse (fun h => by cases h)
  | .jnull, .jarr _ => isFalse (fun h => by cases h)
  | .jnull, .jobj _ => isFalse (fun h => by cases h)
  | .jbool _, .jnull => isFalse (fun h => by cases h)
  | .jbool _, .jint _ => isFalse (fun h => by cases h)
  | .jbool _, .jfloat _ => isFalse (fun h => by cases h)
  | .jbool _, .jstr _ => isFalse (fun h => by cases h)
  | .jbool _, .jarr _ => isFalse (fun h => by cases h)
  | .jbool _, .jobj _ => isFalse (fun h => by cases h)
  | .jint _, .jnull => isFalse (fun h => by cases h)
  | .jint _, .jbool _ => isFalse (fun h => by cases h)
  | .jint _, .jfloat _ => isFalse (fun h => by cases h)
  | .jint _, .jstr _ => isFalse (fun h => by cases h)
  | .jint _, .jarr _ => isFalse (fun h => by cases h)
  | .jint _, .jobj _ => isFalse (fun h => by cases h)
  | .jfloat _, .jnull => isFalse (fun h => by cases h)
  | .jfloat _, .jbool _ => isFalse (fun h => by cases h)
  | .jfloat _, .jint _ => isFalse (fun h => by cases h)
  | .jfloat _, .jstr _ => isFalse (fun h => by cases h)
  | .jfloat _, .jarr _ => isFalse (fun h => by cases h)
  | .jfloat _, .jobj _ => isFalse (fun h => by cases h)
  | .jstr _, .jnull => isFalse (fun h => by cases h)
  | .jstr _, .jbool _ => isFalse (fun h => by cases h)
  | .jstr _, .jint _ => isFalse (fun h => by cases h)
  | .jstr _, .jfloat _ => isFalse (fun h => by cases h)
  | .jstr _, .jarr _ => isFalse (fun h => by cases h)
  | .jstr _, .jobj _ => isFalse (fun h => by cases h)
  | .jarr _, .jnull => isFalse (fun h => by cases h)
  | .jarr _, .jbool _ => isFalse (fun h => by cases h)
  | .jarr _, .jint _ => isFalse (fun h => by cases h)
  | .jarr _, .jfloat _ => isFalse (fun h => by cases h)
  | .jarr _, .jstr _ => isFalse (fun h => by cases h)
  | .jarr _, .jobj _ => isFalse (fun h => by cases h)
  | .jobj _, .jnull => isFalse (fun h => by cases h)
  | .jobj _, .jbool _ => isFalse (fun h => by cases h)
  | .jobj _, .jint _ => isFalse (fun h => by cases h)
  | .jobj _, .jfloat _ => isFalse (fun h => by cases h)
  | .jobj _, .jstr _ => isFalse (fun h => by cases h)
  | .jobj _, .jarr _ => isFalse (fun h => by cases h)
termination_by structural a => a

/-- Decidable equality on lists of `JVal`. -/
def JVal.decEqList : (a b : List JVal) → Decidable (a = b)
  | [], [] => isTrue rfl
  | [], _ :: _ => isFalse (fun h => by cases h)
  | _ :: _, [] => isFalse (fun h => by cases h)
  | x :: xs, y :: ys =>
    match JVal.decEq x y, JVal.decEqList xs ys with
    | isTrue h1, isTrue h2 => isTrue (by rw [h1, h2])
    | isFalse h1, _ => isFalse (fun hh => by cases hh; exact h1 rfl)
    | _, isFalse h2 => isFalse (fun hh => by cases hh; exact h2 rfl)
termination_by structural a => a

/-- Decidable equality on `JVal` object field lists. -/
def JVal.decEqFields : (a b : List (String × JVal)) → Decidable (a = b)
  | [], [] => isTrue rfl
  | [], _ :: _ => isFalse (fun h => by cases h)
  | _ :: _, [] => isFalse (fun h => by cases h)
  | (k, x) :: xs, (l, y) :: ys =>
    match (inferInstance : Decidable (k = l)), JVal.decEq x y, JVal.decEqFields xs ys with
    | isTrue h0, isTrue h1, isTrue h2 => isTrue (by rw [h0, h1, h2])
    | isFalse h0, _, _ => isFalse (fun hh => by cases hh; exact h0 rfl)
    | _, isFalse h1, _ => isFalse (fun hh => by cases hh; exact h1 rfl)
    | _, _, isFalse h2 => isFalse (fun hh => by cases hh; exact h2 rfl)
termination_by structural a => a

end

instance : DecidableEq JVal := JVal.decEq

deriving instance DecidableEq for Except

/-- Python truthiness (`if x:`): `None`, `False`, `0`, `0.0`, `""`, `[]`,
`\x7b\x7d` are falsy, everything else truthy. -/
def pyTruthy : JVal → Bool
  | .jnull => false
  | .jbool b => b
  | .jint n => n != 0
  | .jfloat q => q != 0
  | .jstr s => s != ""
  | .jarr xs => !xs.isEmpty
  | .jobj fs => !fs.isEmpty

/-- Python `==`.  Numbers (including `bool`, an `int` subclass) compare
by numeric value (a rational in lowest terms is integral iff its
denominator is 1); values of unrelated types compare unequal.  Lists and
dicts are compared structurally (an approximation of Python's recursive
`==`; the program only ever compares against strings, where the model is
exact). -/
def pyEq (a b : JVal) : Bool :=
  match a, b with
  | .jnull, .jnull => true
  | .jbool x, .jbool y => x == y
  | .jbool x, .jint n => n == (if x then 1 else 0)
  | .jbool x, .jfloat q => q.den == 1 && q.num == (if x then 1 else 0)
  | .jint n, .jbool x => n == (if x then 1 else 0)
  | .jint m, .jint n => m == n
  | .jint m, .jfloat q => q.den == 1 && q.num == m
  | .jfloat q, .jbool x => q.den == 1 && q.num == (if x then 1 else 0)
  | .jfloat q, .jint m => q.den == 1 && q.num == m
  | .jfloat q, .jfloat r => q == r
  | .jstr s, .jstr t => s == t
  | .jarr xs, .jarr ys => decide (xs = ys)
  | .jobj fs, .jobj gs => decide (fs = gs)
  | _, _ => false

/-- Rendering of a float by `str()`.  CPython's shortest-round-trip repr is
not modelled in full; the integral case (the only one the program's string
output paths can reach after `round(., 1)` is handled by `formatTenths`)
is rendered as Python does. -/
def pyFloatStr (q : Rat) : String :=
  if q.den = 1 then toString q.num ++ ".0"
  else toString q.num ++ "/" ++ toString q.den

/-- Python `str()` / f-string interpolation of a value.  Containers are
abbreviated (never interpolated by the program on any path a claim
touches). -/
def pyStr : JVal → String
  | .jnull => "None"
  | .jbool b => if b then "True" else "False"
  | .jint n => toString n
  | .jfloat q => pyFloatStr q
  | .jstr s => s
  | .jarr _ => "[...]"
  | .jobj _ => "\x7b...\x7d"

/-- Python `d.get(k, default)`: only dicts have `.get`; on anything else an
`AttributeError` is raised. -/
def pyGet (v : JVal) (k : String) (d : JVal) : Except Unit JVal :=
  match v with
  | .jobj fs => .ok ((fs.lookup k).getD d)
  | _ => .error ()

/-- Python `d[k]` with a string key: `KeyError` when a dict lacks the key,
`TypeError` when the value is not a dict. -/
def pyIndex (v : JVal) (k : String) : Except Unit JVal :=
  match v with
  | .jobj fs =>
    match fs.lookup k with
    | some x => .ok x
    | none => .error ()
  | _ => .error ()

/-- Python `k in v` for a string `k`: key test on dicts, membership on
lists, substring test on strings, `TypeError` otherwise. -/
def pyContains (v : JVal) (k : String) : Except Unit Bool :=
  match v with
  | .jobj fs => .ok (fs.any (fun p => p.1 == k))
  | .jarr xs => .ok (xs.any (fun x => pyEq x (.jstr k)))
  | .jstr s => .ok (decide (List.IsInfix k.toList s.toList))
  | _ => .error ()

/-- Python `v[:n]`: slices strings and lists, `TypeError` otherwise. -/
def pySliceTake (n : Nat) (v : JVal) : Except Unit JVal :=
  match v with
  | .jarr xs => .ok (.jarr (xs.take n))
  | .jstr s => .ok (.jstr (String.mk (s.toList.take n)))
  | _ => .error ()

/-- Python `for x in v`: lists yield elements, strings yield 1-character
strings, dicts yield their keys, anything else raises `TypeError`. -/
def pyIter (v : JVal) : Except Unit (List JVal) :=
  match v with
  | .jarr xs => .ok xs
  | .jstr s => .ok (s.toList.map (fun c => .jstr (String.mk [c])))
  | .jobj fs => .ok (fs.map (fun p => .jstr p.1))
  | _ => .error ()

/-! ### Rounding (CPython `round(x, 1)` and `str` of the result)

CPython `round(x, 1)` on a float is correctly rounded: it rounds the exact
binary value of `x` to one decimal, ties to even.  The model works on the
exact rational value of the double. -/

/-- `10 * q` rounded to the nearest integer, ties to even — i.e. the
value of `round(q, 1)` in tenths.  Computed on the numerator and
denominator directly: with `n = ⌊10q⌋` and remainder `r`, the fraction
`r / den` is compared against `1 / 2` via `2r` against `den`. -/
def roundTenthsHalfEven (q : Rat) : Int :=
  let d : Int := (q.den : Int)
  let num : Int := 10 * q.num
  let n : Int := num.fdiv d
  let r : Int := num - n * d
  if 2 * r < d then n
  else if d < 2 * r then n + 1
  else if n % 2 = 0 then n else n + 1

/-- `str` of the float `round(x, 1)` produces: the value is `k` tenths. -/
def formatTenths (k : Int) : String :=
  (if k < 0 then "-" else "") ++
    toString (k.natAbs / 10) ++ "." ++ toString (k.natAbs % 10)

/-- `str(round(v, 1))` on a Python value: ints stay ints, floats are
rounded to one decimal, `bool` rounds as its int value, and any other
type makes `round` raise `TypeError`. -/
def py_round_str (v : JVal) : Except Unit JVal :=
  match v with
  | .jint n => .ok (.jstr (toString n))
  | .jfloat q => .ok (.jstr (formatTenths (roundTenthsHalfEven q)))
  | .jbool b => .ok (.jstr (if b then "1" else "0"))
  | _ => .error ()

/-! ### The normalizer: `get_movie_by_id` (tmdbv2.py lines 206-243)

Each `movie_data` dict entry of the source is a definition below; the
`try`/`except` around the dict construction is the `match` in
`get_movie_by_id`. -/

/-- `response.get("release_date", "N/A")[:4] if response.get("release_date") else "N/A"` -/
def year_field (r : JVal) : Except Unit JVal := do
  let c ← pyGet r "release_date" .jnull
  if pyTruthy c then
    let v ← pyGet r "release_date" (.jstr "N/A")
    pySliceTake 4 v
  else
    pure (.jstr "N/A")

/-- `f"\x7bresponse.get('runtime', 'N/A')\x7d min" if response.get("runtime") else "N/A"` -/
def runtime_field (r : JVal) : Except Unit JVal := do
  let c ← pyGet r "runtime" .jnull
  if pyTruthy c then
    let v ← pyGet r "runtime" (.jstr "N/A")
    pure (.jstr (pyStr v ++ " min"))
  else
    pure (.jstr "N/A")

/-- The comprehension `[genre["name"] for genre in ...]` fed to
`", ".join`; `join` raises `TypeError` on a non-string name. -/
def genre_names : List JVal → Except Unit (List String)
  | [] => .ok []
  | g :: rest => do
    let n ← pyIndex g "name"
    match n with
    | .jstr s => do
      let ns ← genre_names rest
      pure (s :: ns)
    | _ => .error ()

/-- `", ".join([genre["name"] for genre in response.get("genres", [])]) or "N/A"` -/
def genres_field (r : JVal) : Except Unit JVal := do
  let g ← pyGet r "genres" (.jarr [])
  let items ← pyIter g
  let names ← genre_names items
  let s := String.intercalate ", " names
  pure (.jstr (if s = "" then "N/A" else s))

/-- Python `str.upper()` (modelled for ASCII; the program upper-cases
2-letter language codes and the `"N/A"` default). -/
def pyUpper (s : String) : String :=
  String.mk (s.toList.map Char.toUpper)

/-- `response.get("original_language", "N/A").upper()`; `.upper` raises
`AttributeError` on a non-string. -/
def language_field (r : JVal) : Except Unit JVal := do
  let v ← pyGet r "original_language" (.jstr "N/A")
  match v with
  | .jstr s => pure (.jstr (pyUpper s))
  | _ => .error ()

/-- `str(round(response.get("vote_average", 0), 1)) if response.get("vote_average") else "N/A"` -/
def rating_field (r : JVal) : Except Unit JVal := do
  let c ← pyGet r "vote_average" .jnull
  if pyTruthy c then
    let v ← pyGet r "vote_average" (.jint 0)
    py_round_str v
  else
    pure (.jstr "N/A")

/-- `f"https://image.tmdb.org/t/p/original\x7bresponse['poster_path']\x7d" if response.get("poster_path") else None` -/
def poster_field (r : JVal) : Except Unit JVal := do
  let c ← pyGet r "poster_path" .jnull
  if pyTruthy c then
    let v ← pyIndex r "poster_path"
    pure (.jstr ("https://image.tmdb.org/t/p/original" ++ pyStr v))
  else
    pure .jnull

/-- The generator inside `next((...), None)`: first video whose `type` is
`"Trailer"` and `site` is `"YouTube"` wins; `and` short-circuits, later
elements are never examined. -/
def find_trailer : List JVal → Except Unit JVal
  | [] => .ok .jnull
  | v :: rest => do
    let t ← pyIndex v "type"
    if pyEq t (.jstr "Trailer") then do
      let s ← pyIndex v "site"
      if pyEq s (.jstr "YouTube") then do
        let k ← pyIndex v "key"
        pure (.jstr ("https://www.youtube.com/watch?v=" ++ pyStr k))
      else find_trailer rest
    else find_trailer rest

/-- `next((f"https://www.youtube.com/watch?v=\x7bvideo['key']\x7d" for video in
response.get("videos", \x7b\x7d).get("results", []) if ...), None)` -/
def trailer_field (r : JVal) : Except Unit JVal := do
  let vids ← pyGet r "videos" (.jobj [])
  let res ← pyGet vids "results" (.jarr [])
  let items ← pyIter res
  find_trailer items

/-- One entry of `get_recommendations` (tmdbv2.py lines 245-255). -/
def rec_entry (movie : JVal) : Except Unit JVal := do
  let i ← pyGet movie "id" .jnull
  let t ← pyGet movie "title" .jnull
  let c ← pyGet movie "release_date" .jnull
  let y ←
    if pyTruthy c then do
      let v ← pyGet movie "release_date" (.jstr "")
      pySliceTake 4 v
    else pure (.jstr "N/A")
  let pc ← pyGet movie "poster_path" .jnull
  let p ←
    if pyTruthy pc then do
      let v ← pyIndex movie "poster_path"
      pure (.jstr ("https://image.tmdb.org/t/p/w200" ++ pyStr v))
    else pure .jnull
  pure (.jobj [("id", i), ("title", t), ("year", y), ("poster", p)])

/-- `get_recommendations` (tmdbv2.py lines 245-255): format the (already
sliced) recommendations list. -/
def get_recommendations : List JVal → Except Unit JVal
  | [] => .ok (.jarr [])
  | m :: rest => do
    let e ← rec_entry m
    let es ← get_recommendations rest
    match es with
    | .jarr l => pure (.jarr (e :: l))
    | _ => pure (.jarr [e])

/-- `response.get("recommendations", \x7b\x7d).get("results", [])[:5]` fed to
`get_recommendations`. -/
def recs_field (r : JVal) : Except Unit JVal := do
  let rc ← pyGet r "recommendations" (.jobj [])
  let res ← pyGet rc "results" (.jarr [])
  let sliced ← pySliceTake 5 res
  let items ← pyIter sliced
  get_recommendations items

/-- The `movie_data = \x7b...\x7d` dict construction inside the `try` of
`get_movie_by_id` (tmdbv2.py lines 222-238); values are computed in
source order and the first exception aborts the construction. -/
def movie_data_extract (movie_id : JVal) (response : JVal) : Except Unit JVal := do
  let idv ← pyIndex response "id"
  let title ← pyGet response "title" (.jstr "N/A")
  let year ← year_field response
  let runtime ← runtime_field response
  let genres ← genres_field response
  let language ← language_field response
  let rating ← rating_field response
  let overview ← pyGet response "overview" (.jstr "No overview available.")
  let poster ← poster_field response
  let trailer ← trailer_field response
  let link := JVal.jstr ("https://www.themoviedb.org/movie/" ++ pyStr movie_id)
  let recs ← recs_field response
  pure (.jobj [("id", idv), ("title", title), ("year", year),
    ("runtime", runtime), ("genres", genres), ("language", language),
    ("rating", rating), ("overview", overview), ("poster_url", poster),
    ("trailer_url", trailer), ("tmdb_link", link),
    ("recommendations", recs)])

/-- `get_movie_by_id` (tmdbv2.py lines 206-243).  `response` is the value
`make_tmdb_request` produced (`jnull` when the request yielded no data);
the result is `jnull` ("not found") or the `movie_data` dict.  The broad
`except` around the dict construction maps any extraction error to
`None`; errors raised before the `try` (by `"id" not in response` on a
non-container) propagate. -/
def get_movie_by_id (movie_id response : JVal) : Except Unit JVal := do
  if !pyTruthy response then
    pure .jnull
  else do
    let c ← pyContains response "id"
    if !c then
      pure .jnull
    else
      match movie_data_extract movie_id response with
      | .ok d => pure d
      | .error _ => pure .jnull

/-! ### `get_trending_movies` / `get_popular_movies` (tmdbv2.py lines 257-273)

The network is abstracted as an oracle `net : JVal → JVal` giving, for a
movie id, the JSON value the per-id detail request produced (`jnull` when
the request yielded no data). -/

/-- The comprehension `[await get_movie_by_id(movie["id"]) for movie in items]`. -/
def fetch_details (net : JVal → JVal) : List JVal → Except Unit (List JVal)
  | [] => .ok []
  | m :: rest => do
    let i ← pyIndex m "id"
    let d ← get_movie_by_id i (net i)
    let ds ← fetch_details net rest
    pure (d :: ds)

/-- `get_trending_movies` (tmdbv2.py lines 257-264); `response` is the
value of the trending-list request. -/
def get_trending_movies (net : JVal → JVal) (response : JVal) : Except Unit JVal := do
  if !pyTruthy response then
    pure .jnull
  else do
    let c ← pyGet response "results" .jnull
    if !pyTruthy c then
      pure .jnull
    else do
      let res ← pyGet response "results" (.jarr [])
      let sliced ← pySliceTake 5 res
      let items ← pyIter sliced
      let ds ← fetch_details net items
      pure (.jarr ds)

/-- `get_popular_movies` (tmdbv2.py lines 266-273); body identical to
`get_trending_movies` up to the request URL, which the oracle abstracts. -/
def get_popular_movies (net : JVal → JVal) (response : JVal) : Except Unit JVal := do
  if !pyTruthy response then
    pure .jnull
  else do
    let c ← pyGet response "results" .jnull
    if !pyTruthy c then
      pure .jnull
    else do
      let res ← pyGet response "results" (.jarr [])
      let sliced ← pySliceTake 5 res
      let items ← pyIter sliced
      let ds ← fetch_details net items
      pure (.jarr ds)

/-! ### The retry pipeline (tmdbv2.py lines 151-180)

`retry_on_failure(max_retries=3, delay=5)` wraps `make_tmdb_request`.
An attempt of the wrapped call either returns a value or raises. -/

/-- Outcome of one call of the wrapped function. -/
inductive Attempt (α : Type) : Type where
  | raises : Attempt α
  | returns : α → Attempt α

/-- Outcome of one HTTP attempt inside `make_tmdb_request`:
a transport-level error (timeout, connection failure, non-2xx raised by
`raise_for_status`) or a JSON body. -/
inductive TransportOutcome : Type where
  | transportError : TransportOutcome
  | success : JVal → TransportOutcome

/-- The `while retries < max_retries` loop of the `retry_on_failure`
wrapper (tmdbv2.py lines 155-167): `f k` is the outcome of attempt `k`
(0-based), `fuel` the remaining attempts.  Returns the result together
with the number of `time.sleep(delay)` calls made (a sleep happens after
a failed attempt only while attempts remain).  `.error ()` models the
`while`-`else` `raise` after the attempt budget is exhausted. -/
def retry_loop (f : Nat → Attempt α) : Nat → Nat → Except Unit α × Nat
  | _, 0 => (.error (), 0)
  | k, fuel + 1 =>
    match f k with
    | .returns a => (.ok a, 0)
    | .raises =>
      let (res, slept) := retry_loop f (k + 1) fuel
      (res, (if 0 < fuel then 1 else 0) + slept)

/-- `retry_on_failure(max_retries, delay)` applied to a wrapped call. -/
def retry_on_failure (max_retries : Nat) (f : Nat → Attempt α) : Except Unit α × Nat :=
  retry_loop f 0 max_retries

/-- The body of `make_tmdb_request` (tmdbv2.py lines 171-180): its
`try`/`except requests.exceptions.RequestException` catches every
transport-level error and turns it into a normal `return None`, so the
call never raises on such an error. -/
def make_tmdb_request (t : TransportOutcome) : Attempt JVal :=
  match t with
  | .transportError => .returns .jnull
  | .success j => .returns j

/-- The decorated `make_tmdb_request` as callers see it: the retry
wrapper (defaults `max_retries=3`, `delay=5`) around the request body,
where `attempts k` is the transport outcome of the `k`-th HTTP attempt. -/
def tmdb_request_with_retry (attempts : Nat → TransportOutcome) :
    Except Unit JVal × Nat :=
  retry_on_failure 3 (fun k => make_tmdb_request (attempts k))

/-! ### Formatters (tmdbv2.py lines 275-309) -/

/-- The `for rec in movie["recommendations"]` loop body of
`format_movie_message`. -/
def fmm_recs_lines : List JVal → Except Unit String
  | [] => .ok ""
  | rc :: rest => do
    let t ← pyIndex rc "title"
    let y ← pyIndex rc "year"
    let i ← pyIndex rc "id"
    let restS ← fmm_recs_lines rest
    pure ("\nğ’†œ [" ++ pyStr t ++ " (" ++ pyStr y ++
      ")](https://www.themoviedb.org/movie/" ++ pyStr i ++ ")" ++ restS)

/-- The body of the `try` block of `format_movie_message` (tmdbv2.py
lines 277-297), evaluating the f-string pieces in source order. -/
def fmm_body (movie : JVal) (include_recommendations : Bool) : Except Unit String := do
  let t ← pyIndex movie "title"
  let y ← pyIndex movie "year"
  let ra ← pyIndex movie "rating"
  let ru ← pyIndex movie "runtime"
  let g ← pyIndex movie "genres"
  let la ← pyIndex movie "language"
  let ov ← pyIndex movie "overview"
  let li ← pyIndex movie "tmdb_link"
  let text :=
    "ğŸ¬ *" ++ pyStr t ++ "* (" ++ pyStr y ++ ")\n" ++
    "â­ Rá´€á´›ÉªÉ´É¢: " ++ pyStr ra ++ "/10\n" ++
    "â³ Rá´œÉ´á´›Éªá´á´‡: " ++ pyStr ru ++ "\n" ++
    "ğŸ“Œ Gá´‡É´Ê€á´‡êœ±: " ++ pyStr g ++ "\n" ++
    "ğŸŒ Lá´€É´É¢á´œá´€É¢á´‡: " ++ pyStr la ++ "\n\n" ++
    "ğŸ“– *Oá´ á´‡Ê€á´ Éªá´‡á´¡:*\n" ++ pyStr ov ++ "\n\n" ++
    "ğŸ”— [More Info on TMDB](" ++ pyStr li ++ ")"
  let tr ← pyIndex movie "trailer_url"
  let text :=
    if pyTruthy tr then text ++ "\nğŸ¥ [Watch Trailer](" ++ pyStr tr ++ ")"
    else text
  if include_recommendations then do
    let rs ← pyGet movie "recommendations" .jnull
    if pyTruthy rs then do
      let rv ← pyIndex movie "recommendations"
      let items ← pyIter rv
      let lines ← fmm_recs_lines items
      pure (text ++ "\n\nğŸ¥ *ï®©ï®©Ù¨Ù€ï®©ï®©Yá´á´œ MÉªÉ¢Êœá´› AÊŸêœ±á´ LÉªá´‹á´‡ï®©ï®©Ù€Ù¨ï®©:*" ++ lines)
    else pure text
  else pure text

/-- `format_movie_message` (tmdbv2.py lines 275-300): the broad
`except` returns the placeholder string, so the function is total. -/
def format_movie_message (movie : JVal) (include_recommendations : Bool) : String :=
  match fmm_body movie include_recommendations with
  | .ok t => t
  | .error _ => "Error formatting movie information."

/-- The two lines appended per truthy entry of `format_movie_list`. -/
def movie_list_block (movie : JVal) : Except Unit String := do
  let t ← pyIndex movie "title"
  let y ← pyIndex movie "year"
  let i ← pyIndex movie "id"
  let ra ← pyIndex movie "rating"
  let ru ← pyIndex movie "runtime"
  pure ("ğŸ¬ [" ++ pyStr t ++ " (" ++ pyStr y ++
    ")](https://www.themoviedb.org/movie/" ++ pyStr i ++ ")\n" ++
    "â­ " ++ pyStr ra ++ "/10 | â³ " ++ pyStr ru ++ "\n\n")

/-- The `for movie in movies` loop of `format_movie_list`. -/
def format_movie_list_go : List JVal → String → Except Unit String
  | [], text => .ok text
  | m :: rest, text =>
    if pyTruthy m then do
      let b ← movie_list_block m
      format_movie_list_go rest (text ++ b)
    else format_movie_list_go rest text

/-- `format_movie_list` (tmdbv2.py lines 302-309).  Note: unlike
`format_movie_message` it has no `try`/`except`, so an extraction error
propagates to the caller (modelled by the `Except` result). -/
def format_movie_list (movies : JVal) (title : String) : Except Unit String := do
  let items ← pyIter movies
  format_movie_list_go items ("*" ++ title ++ "*\n\n")

/-! ### Database layer (tmdbv2.py lines 71-145)

MongoDB collections are modelled as lists of documents in insertion
order; `update_one`/`delete_one` act on the first matching document. -/

/-- A Telegram user as the handlers see it. -/
structure TgUser where
  id : Int
  username : Option String
  first_name : Option String
  last_name : Option String
deriving DecidableEq

/-- A document of the `users` collection. -/
structure UserDoc where
  user_id : Int
  username : Option String
  first_name : Option String
  last_name : Option String
  join_date : String
deriving DecidableEq

/-- A document of the `searches` collection (`movie_id` is `jnull` when
the search resolved nothing). -/
structure SearchDoc where
  user_id : Int
  query : String
  movie_id : JVal
  search_date : String
deriving DecidableEq

/-- A document of the `favorites` collection. -/
structure FavDoc where
  user_id : Int
  movie_id : JVal
  movie_title : JVal
  add_date : String
deriving DecidableEq

/-- `add_user` (tmdbv2.py lines 71-82): `update_one(..., upsert=True)`
keyed on `user_id` — the first matching document has all four fields
`$set`, otherwise a new document is appended. -/
def add_user : List UserDoc → TgUser → String → List UserDoc
  | [], u, now => [⟨u.id, u.username, u.first_name, u.last_name, now⟩]
  | d :: rest, u, now =>
    if d.user_id = u.id then
      ⟨d.user_id, u.username, u.first_name, u.last_name, now⟩ :: rest
    else d :: add_user rest u now

/-- `is_admin` (tmdbv2.py lines 84-86): in the `admins` collection or in
the static `CONFIG['admin_ids']` list. -/
def is_admin (admins config_admin_ids : List Int) (user_id : Int) : Bool :=
  admins.contains user_id || config_admin_ids.contains user_id

/-- `add_favorite` (tmdbv2.py lines 97-109): reports `False` when a
document with the same `(user_id, movie_id)` key exists, otherwise
inserts and reports `True`. -/
def add_favorite (favorites : List FavDoc) (user_id : Int)
    (movie_id movie_title : JVal) (now : String) : List FavDoc × Bool :=
  if 0 < (favorites.filter
      (fun d => decide (d.user_id = user_id ∧ d.movie_id = movie_id))).length then
    (favorites, false)
  else
    (favorites ++ [⟨user_id, movie_id, movie_title, now⟩], true)

/-- `get_favorites` (tmdbv2.py lines 116-122): the user's documents
sorted by `add_date` descending (Mongo sorts the `'%Y-%m-%d %H:%M:%S'`
strings lexicographically, which is chronological), projected to
`(movie_id, movie_title)`. -/
def get_favorites (favorites : List FavDoc) (user_id : Int) : List (JVal × JVal) :=
  ((favorites.filter (fun d => decide (d.user_id = user_id))).insertionSort
      (fun a b => b.add_date ≤ a.add_date)).map
    (fun d => (d.movie_id, d.movie_title))

/-- `get_user_count` (tmdbv2.py lines 124-126). -/
def get_user_count (users : List UserDoc) : Nat :=
  users.length

/-- The distinct `movie_id` group keys of the aggregation in
`get_search_stats`, in first-appearance order (Mongo leaves group order
unspecified; the subsequent sort by count makes the choice immaterial). -/
def search_group_keys (relevant : List SearchDoc) : List JVal :=
  relevant.foldl (fun acc s => if s.movie_id ∈ acc then acc else acc ++ [s.movie_id]) []

/-- `get_search_stats` (tmdbv2.py lines 128-141): group the searches
with a non-null `movie_id` by id with counts, sort by count descending,
keep the top 10; also the total number of searches. -/
def get_search_stats (searches : List SearchDoc) : List (JVal × Nat) × Nat :=
  let relevant := searches.filter (fun s => decide (s.movie_id ≠ .jnull))
  let grouped := (search_group_keys relevant).map
    (fun k => (k, (relevant.filter (fun s => decide (s.movie_id = k))).length))
  ((grouped.insertionSort (fun a b => b.2 ≤ a.2)).take 10, searches.length)

/-- `get_all_users` (tmdbv2.py lines 143-145). -/
def get_all_users (users : List UserDoc) : List Int :=
  users.map (fun d => d.user_id)

/-- The whole persisted state: the four collections. -/
structure DB where
  users : List UserDoc
  searches : List SearchDoc
  favorites : List FavDoc
  admins : List Int
deriving DecidableEq

/-- The `for movie in top_movies` loop of `show_stats` (tmdbv2.py lines
515-520), re-fetching each top movie through the detail oracle. -/
def stats_lines (net : JVal → JVal) : List (JVal × Nat) → Except Unit String
  | [] => .ok ""
  | (mid, cnt) :: rest => do
    let d ← get_movie_by_id mid (net mid)
    let line ←
      if pyTruthy d then do
        let t ← pyIndex d "title"
        pure ("- " ++ pyStr t ++ ": " ++ toString cnt ++ " Sá´‡á´€Ê€á´„Êœá´‡êœ±\n")
      else
        pure ("- ID " ++ pyStr mid ++ ": " ++ toString cnt ++ " Sá´‡á´€Ê€á´„Êœá´‡êœ±\n")
    let restS ← stats_lines net rest
    pure (line ++ restS)

/-- `show_stats` (tmdbv2.py lines 498-525).  `add_user` runs before the
admin check; a non-admin then only gets the denial reply.  For an admin
the statistics text is assembled; an exception inside the handler is
caught by its `try`/`except`, which replies with the error message. -/
def show_stats (cfg : List Int) (net : JVal → JVal) (db : DB) (u : TgUser)
    (now : String) : DB × String :=
  let db := { db with users := add_user db.users u now }
  if !is_admin db.admins cfg u.id then
    (db, "âŒ This command is for admins only.")
  else
    let user_count := get_user_count db.users
    let (top_movies, total_searches) := get_search_stats db.searches
    let text :=
      "ğŸ“Š *Bá´á´› Sá´›á´€á´›Éªêœ±á´›Éªá´„êœ±*\n\n" ++
      "ğŸ‘¥ Tá´á´›á´€ÊŸ Uêœ±á´‡Ê€êœ±: " ++ toString user_count ++ "\n" ++
      "ğŸ” Tá´á´›á´€ÊŸ Sá´‡á´€Ê€á´„Êœá´‡êœ±: " ++ toString total_searches ++ "\n\n" ++
      "ğŸ¥ *âğ“ğ¨ğ© ğŸğŸ ğŒğ¨ğ¬ğ­ ğ’ğğšğ«ğœğ¡ğğ ğŒğ¨ğ¯ğ¢ğğ¬â:*\n"
    match stats_lines net top_movies with
    | .ok s => (db, text ++ s)
    | .error _ =>
      (db, "âŒ AÉ´ EÊ€Ê€á´Ê€ Oá´„á´„á´œÊ€Ê€á´‡á´… WÊœÉªÊŸá´‡ Fá´‡á´›á´„ÊœÉªÉ´É¢ Sá´›á´€á´›Éªêœ±á´›Éªá´„êœ±. PÊŸá´‡á´€êœ±á´‡ TÊ€Ê AÉ¢á´€ÉªÉ´.")

/-- The `for user_id in users` delivery loop of `broadcast_message`
(tmdbv2.py lines 547-558): per-recipient failures are counted and
skipped. -/
def broadcast_send_loop (deliver : Int → Bool) : List Int → Nat × Nat
  | [] => (0, 0)
  | uid :: rest =>
    let (s, f) := broadcast_send_loop deliver rest
    if deliver uid then (s + 1, f) else (s, f + 1)

/-- `broadcast_message` (tmdbv2.py lines 527-563).  `add_user` runs
before the admin check; a non-admin only gets the denial reply.  The
result is the new state plus the ordered replies sent to the invoker. -/
def broadcast_message (cfg : List Int) (deliver : Int → Bool) (db : DB)
    (u : TgUser) (text now : String) : DB × List String :=
  let db := { db with users := add_user db.users u now }
  if !is_admin db.admins cfg u.id then
    (db, ["âŒ TÊœÉªêœ± Cá´á´á´á´€É´á´… Iêœ± Fá´Ê€ Aá´…á´ÉªÉ´êœ± OÉ´ÊŸÊ. PÊŸá´‡á´€êœ±á´‡ Dá´É´\x27á´› CÊ€Ê ."])
  else
    let broadcast_text := (text.replace "/broadcast" "").trim
    if broadcast_text = "" then
      (db, ["PÊŸá´‡á´€êœ±á´‡ PÊ€á´á´ Éªá´…á´‡ A Má´‡êœ±êœ±á´€É¢á´‡ Tá´ BÊ€á´á´€á´…á´„á´€êœ±á´›. Exá´€á´á´˜ÊŸá´‡:\n`/broadcast Hello users!`"])
    else
      let users := get_all_users db.users
      let (succ, fails) := broadcast_send_loop deliver users
      (db, ["ğŸ“¢ Sá´›á´€Ê€á´›ÉªÉ´É¢ BÊ€á´á´€á´…á´„á´€êœ±á´› Tá´ " ++ toString users.length ++ " users...",
        "ğŸ“¢ BÊ€á´á´€á´…á´„á´€êœ±á´› Cá´á´á´˜ÊŸá´‡á´›á´‡á´…!\nâœ… Sá´œá´„á´„á´‡êœ±êœ±: " ++ toString succ ++
          "\nâŒ Fá´€ÉªÊŸá´œÊ€á´‡êœ±: " ++ toString fails])

/-! ### Helper lemmas -/

/-- A bind in the `Except` monad succeeds iff both steps do. -/
theorem except_bind_ok {α β : Type} (x : Except Unit α) (f : α → Except Unit β) (b : β) :
    (x >>= f) = .ok b ↔ ∃ a, x = .ok a ∧ f a = .ok b := by
  cases x <;> simp [Bind.bind, Except.bind]

/-- A bind in the `Except` monad fails iff one of its steps does. -/
theorem except_bind_err {α β : Type} (x : Except Unit α) (f : α → Except Unit β) :
    (x >>= f) = .error () ↔ x = .error () ∨ ∃ a, x = .ok a ∧ f a = .error () := by
  cases x with
  | error e => cases e; simp [Bind.bind, Except.bind]
  | ok a => simp [Bind.bind, Except.bind]

/-- `List.lookup` finds nothing iff no pair has the key. -/
theorem lookup_none_iff_any {β : Type} (k : String) (fs : List (String × β)) :
    List.lookup k fs = none ↔ fs.any (fun p => p.1 == k) = false := by
  induction fs with
  | nil => simp
  | cons hd tl ih =>
    obtain ⟨a, b⟩ := hd
    cases h : (k == a) with
    | true =>
      have : a = k := (beq_iff_eq.mp h).symm
      simp [List.lookup, h, this]
    | false =>
      have : ¬a = k := fun hh => by simp [hh] at h
      simp [List.lookup, h, this, ih]

/-- A successful `movie_data_extract` always produces a dict whose first
field is the raw `id`. -/
theorem movie_data_extract_ok_shape (mid r d : JVal)
    (h : movie_data_extract mid r = .ok d) :
    ∃ v rest, pyIndex r "id" = .ok v ∧ d = .jobj (("id", v) :: rest) := by
  simp only [movie_data_extract, except_bind_ok, pure, Except.pure, Except.ok.injEq] at h
  obtain ⟨v, hv, _, _, _, _, _, _, _, _, _, _, _, _, _, _, _, _, _, _, _, _, hd⟩ := h
  exact ⟨v, _, hv, hd.symm⟩

/-! ### Claims -/

/-- C1: the spec claims a request failing transport-level on attempts 1
and 2 and succeeding on attempt 3 is retried (5 time-units apart) and its
success returned.  In the code, `make_tmdb_request` catches every
`requests.RequestException` itself and `return`s `None`, so the
`retry_on_failure` wrapper sees a normal return: the caller receives
`None` ("no data") after the first attempt, with zero retries and zero
sleeps, and the attempt-3 payload is never fetched.  The wrapper itself
does retry a wrapped call that raises (third conjunct: two failures, one
success, two sleeps), which is what the decorator was evidently meant to
do — the inner `except` defeats it, a code bug. -/
theorem c1_transport_errors_not_retried :
    tmdb_request_with_retry
        (fun k => if k < 2 then .transportError else .success (.jstr "payload")) =
      (.ok .jnull, 0) ∧
    (Except.ok JVal.jnull : Except Unit JVal) ≠ .ok (.jstr "payload") ∧
    retry_on_failure 3 (fun k => if k < 2 then Attempt.raises else .returns 42) =
      (.ok 42, 2) := by
  exact ⟨by decide, by decide, by decide⟩

/-- C3 (amended): the rating is `"N/A"` when `vote_average` is absent or
`0`/`0.0`, and for a nonzero float it is `str(round(v, 1))`, CPython's
correctly-rounded half-even rounding of the stored double to one
decimal.  The claim's example `7.05 ↦ "7.1"` is wrong: the IEEE-754
double written `7.05` is `7937594343240499 / 2^50 < 7.05`, so
`round(7.05, 1)` is `7.0` (and even an exact decimal `7.05` would round
to `7.0` under ties-to-even); `7.049` (the double
`7936468443333657 / 2^50`) also gives `"7.0"`. -/
theorem c3_rating_rounding :
    (∀ fs : List (String × JVal), List.lookup "vote_average" fs = none →
      rating_field (.jobj fs) = .ok (.jstr "N/A")) ∧
    (∀ fs : List (String × JVal), List.lookup "vote_average" fs = some (.jfloat 0) →
      rating_field (.jobj fs) = .ok (.jstr "N/A")) ∧
    (∀ (fs : List (String × JVal)) (q : Rat),
      List.lookup "vote_average" fs = some (.jfloat q) → q ≠ 0 →
      rating_field (.jobj fs) = .ok (.jstr (formatTenths (roundTenthsHalfEven q)))) ∧
    rating_field (.jobj [("vote_average",
      .jfloat (mkRat 7936468443333657 1125899906842624))]) = .ok (.jstr "7.0") ∧
    rating_field (.jobj [("vote_average",
      .jfloat (mkRat 7937594343240499 1125899906842624))]) = .ok (.jstr "7.0") := by
  refine ⟨?_, ?_, ?_, by decide, by decide⟩
  · intro fs h
    simp [rating_field, pyGet, h, pyTruthy, pure, Except.pure, Bind.bind, Except.bind]
  · intro fs h
    simp [rating_field, pyGet, h, pyTruthy, pure, Except.pure, Bind.bind, Except.bind]
  · intro fs q hq hne
    simp [rating_field, pyGet, hq, pyTruthy, bne_iff_ne, hne, py_round_str,
      pure, Except.pure, Bind.bind, Except.bind]

/-- C3 witness: the hypotheses of the amended claim are satisfiable — a
record without `vote_average` rates `"N/A"`, and `6.8` (exactly
representable scaled value here modelled as `34/5`) rates via
`formatTenths`/`roundTenthsHalfEven`. -/
theorem c3_rating_rounding_witness :
    rating_field (.jobj [("x", .jint 1)]) = .ok (.jstr "N/A") ∧
    rating_field (.jobj [("vote_average", .jfloat (mkRat 34 5))]) =
      .ok (.jstr (formatTenths (roundTenthsHalfEven (mkRat 34 5)))) := by
  exact ⟨c3_rating_rounding.1 _ (by decide),
    c3_rating_rounding.2.2.1 _ _ (by decide) (by decide)⟩

/-- If a key is present, the dict key scan finds it. -/
theorem lookup_isSome_any {β : Type} (k : String) (fs : List (String × β))
    (h : (List.lookup k fs).isSome = true) :
    fs.any (fun p => p.1 == k) = true := by
  cases hany : fs.any (fun p => p.1 == k) with
  | false => rw [(lookup_none_iff_any k fs).mpr hany] at h; simp at h
  | true => rfl

/-- C4: a raw detail payload without an `id` field normalizes to
`NotFound` (`None`), and conversely every record `get_movie_by_id`
constructs carries the raw response's `id` as its `id` field — there are
no partial records without an id. -/
theorem c4_id_required :
    (∀ (mid : JVal) (fs : List (String × JVal)), List.lookup "id" fs = none →
      get_movie_by_id mid (.jobj fs) = .ok .jnull) ∧
    (∀ mid r d : JVal, get_movie_by_id mid r = .ok d → d ≠ .jnull →
      ∃ v, pyIndex r "id" = .ok v ∧ pyIndex d "id" = .ok v) := by
  constructor
  · intro mid fs h
    have hany := (lookup_none_iff_any "id" fs).mp h
    cases fs with
    | nil => rfl
    | cons hd tl =>
      simp [get_movie_by_id, pyTruthy, pyContains, hany,
        Bind.bind, Except.bind, pure, Except.pure]
  · intro mid r d h hd
    by_cases ht : pyTruthy r = true
    · cases hc : pyContains r "id" with
      | error e =>
        cases e
        simp [get_movie_by_id, ht, hc, Bind.bind, Except.bind, pure, Except.pure] at h
      | ok c =>
        cases c with
        | false =>
          simp [get_movie_by_id, ht, hc, Bind.bind, Except.bind, pure, Except.pure] at h
          exact absurd h.symm hd
        | true =>
          cases hx : movie_data_extract mid r with
          | error u =>
            simp [get_movie_by_id, ht, hc, hx,
              Bind.bind, Except.bind, pure, Except.pure] at h
            exact absurd h.symm hd
          | ok d' =>
            simp [get_movie_by_id, ht, hc, hx,
              Bind.bind, Except.bind, pure, Except.pure] at h
            obtain ⟨v, rest, hv, hshape⟩ := movie_data_extract_ok_shape mid r d' hx
            subst h
            exact ⟨v, hv, by simp [hshape, pyIndex, List.lookup]⟩
    · rw [Bool.not_eq_true] at ht
      simp [get_movie_by_id, ht, pure, Except.pure] at h
      exact absurd h.symm hd

/-- C4 witness: the concrete payload without `id` yields `NotFound`, and
the record constructed from a payload with `id = 27205` carries that id
as its own `id` field. -/
theorem c4_id_required_witness :
    get_movie_by_id (.jint 1) (.jobj [("title", .jstr "Avatar")]) = .ok .jnull ∧
    ∃ v, pyIndex (.jobj [("id", .jint 27205), ("title", .jstr "Inception")]) "id" = .ok v ∧
      pyIndex (.jobj [("id", .jint 27205), ("title", .jstr "Inception"),
        ("year", .jstr "N/A"), ("runtime", .jstr "N/A"), ("genres", .jstr "N/A"),
        ("language", .jstr "N/A"), ("rating", .jstr "N/A"),
        ("overview", .jstr "No overview available."), ("poster_url", .jnull),
        ("trailer_url", .jnull),
        ("tmdb_link", .jstr "https://www.themoviedb.org/movie/27205"),
        ("recommendations", .jarr [])]) "id" = .ok v :=
  ⟨c4_id_required.1 (.jint 1) _ (by decide),
    c4_id_required.2 (.jint 27205)
      (.jobj [("id", .jint 27205), ("title", .jstr "Inception")]) _
      (by decide) (by decide)⟩

/-- C2: when the raw detail response does contain an `id` field, an
exception raised while extracting any optional nested field is absorbed
by the broad `except` around the `movie_data` construction: it never
propagates to the caller, and the whole operation yields `NotFound`
(`None`) exactly when the extraction attempt raises (a successful
extraction is returned as the record). -/
theorem c2_nested_exception_absorbed (mid : JVal) (fs : List (String × JVal))
    (h : (List.lookup "id" fs).isSome = true) :
    (get_movie_by_id mid (.jobj fs) = .ok .jnull ↔
      movie_data_extract mid (.jobj fs) = .error ()) ∧
    ∀ d, movie_data_extract mid (.jobj fs) = .ok d →
      get_movie_by_id mid (.jobj fs) = .ok d := by
  have hne : fs ≠ [] := by
    intro hh
    subst hh
    simp [List.lookup] at h
  have ht : pyTruthy (.jobj fs) = true := by
    cases fs with
    | nil => exact absurd rfl hne
    | cons hd tl => rfl
  have hc : pyContains (.jobj fs) "id" = .ok true := by
    simp [pyContains, lookup_isSome_any "id" fs h]
  constructor
  · cases hx : movie_data_extract mid (.jobj fs) with
    | error u =>
      cases u
      simp [get_movie_by_id, ht, hc, hx, Bind.bind, Except.bind, pure, Except.pure]
    | ok d' =>
      obtain ⟨v, rest, _, hshape⟩ := movie_data_extract_ok_shape mid _ d' hx
      simp [get_movie_by_id, ht, hc, hx, hshape,
        Bind.bind, Except.bind, pure, Except.pure]
  · intro d hx
    simp [get_movie_by_id, ht, hc, hx, Bind.bind, Except.bind, pure, Except.pure]

/-- C2 witness: a response with an `id` and a malformed genre entry
(`\x7b"x": 1\x7d` has no `"name"`, so `genre["name"]` raises `KeyError`):
the extraction raises, the exception is absorbed, and the operation
yields `NotFound`. -/
theorem c2_nested_exception_absorbed_witness :
    get_movie_by_id (.jint 7)
      (.jobj [("id", .jint 7), ("genres", .jarr [.jobj [("x", .jint 1)]])]) =
      .ok .jnull ∧
    movie_data_extract (.jint 7)
      (.jobj [("id", .jint 7), ("genres", .jarr [.jobj [("x", .jint 1)]])]) =
      .error () := by
  exact ⟨(c2_nested_exception_absorbed (.jint 7) _ (by decide)).1.mpr (by decide),
    by decide⟩

/-- When every truthy entry renders, the list-formatter loop succeeds. -/
theorem format_movie_list_go_ok (ms : List JVal)
    (h : ∀ m ∈ ms, pyTruthy m = true → ∃ s, movie_list_block m = .ok s) :
    ∀ text, ∃ s, format_movie_list_go ms text = .ok s := by
  induction ms with
  | nil => intro text; exact ⟨text, rfl⟩
  | cons m rest ih =>
    intro text
    by_cases hm : pyTruthy m = true
    · obtain ⟨b, hb⟩ := h m (by simp) hm
      obtain ⟨s, hs⟩ := ih (fun x hx => h x (by simp [hx])) (text ++ b)
      exact ⟨s, by simp [format_movie_list_go, hm, hb,
        Bind.bind, Except.bind, hs]⟩
    · rw [Bool.not_eq_true] at hm
      obtain ⟨s, hs⟩ := ih (fun x hx => h x (by simp [hx])) text
      exact ⟨s, by simp [format_movie_list_go, hm, hs]⟩

/-- C5 (amended): `format_movie_message` never propagates an exception —
its `try`/`except` returns the extracted text on success and the generic
placeholder on any internal failure (so it is a total `String`-valued
function).  `format_movie_list`, however, has no such guard: it
propagates an exception raised by a truthy entry that lacks a required
field (see the counterexample), though it raises none whenever every
truthy entry renders — in particular on normalizer output and on `None`
entries. -/
theorem c5_formatters_absorb (movie : JVal) (incl : Bool)
    (movies : List JVal) (t : String)
    (h : ∀ m ∈ movies, pyTruthy m = true → ∃ s, movie_list_block m = .ok s) :
    (∀ e, fmm_body movie incl = .error e →
      format_movie_message movie incl = "Error formatting movie information.") ∧
    (∀ s, fmm_body movie incl = .ok s → format_movie_message movie incl = s) ∧
    ∃ s, format_movie_list (.jarr movies) t = .ok s := by
  refine ⟨?_, ?_, ?_⟩
  · intro e he; simp [format_movie_message, he]
  · intro s hs; simp [format_movie_message, hs]
  · obtain ⟨s, hs⟩ := format_movie_list_go_ok movies h ("*" ++ t ++ "*\n\n")
    exact ⟨s, by simp [format_movie_list, pyIter, Bind.bind, Except.bind, hs]⟩

/-- C5 witness: a non-dict "record" makes the detail-formatter body
raise; the exception is absorbed into the placeholder.  A list with only
a `None` entry formats without raising. -/
theorem c5_formatters_absorb_witness :
    format_movie_message (.jint 0) true = "Error formatting movie information." ∧
    ∃ s, format_movie_list (.jarr [.jnull]) "T" = .ok s := by
  have H := c5_formatters_absorb (.jint 0) true [.jnull] "T"
    (fun m hm htr => by
      rw [List.mem_singleton] at hm
      subst hm
      exact absurd htr (by decide))
  exact ⟨H.1 () (by decide), H.2.2⟩

/-- C5 counterexample: the claim says neither formatter ever propagates
an exception, but `format_movie_list` has no `try`/`except`: a truthy
entry without a `"title"` key raises `KeyError`, which propagates to the
caller. -/
theorem c5_counterexample :
    format_movie_list (.jarr [.jobj [("x", .jint 0)]]) "T" = .error () := by
  decide

/-- C6: a three-record list containing one `None` among two valid
records renders as the heading followed by exactly the two blocks of the
valid records — the `None` entry is skipped silently, producing no error
line. -/
theorem c6_null_entry_skipped (t : String) (a b : JVal) (ba bb : String)
    (ha : pyTruthy a = true) (hb : pyTruthy b = true)
    (hba : movie_list_block a = .ok ba) (hbb : movie_list_block b = .ok bb) :
    format_movie_list (.jarr [a, .jnull, b]) t =
      .ok ("*" ++ t ++ "*\n\n" ++ ba ++ bb) := by
  have hn : pyTruthy .jnull = false := rfl
  simp [format_movie_list, pyIter, format_movie_list_go, ha, hb, hba, hbb, hn,
    Bind.bind, Except.bind]

/-- C6 witness: two concrete normalized records around a `None`. -/
theorem c6_null_entry_skipped_witness :
    ∃ ba bb,
      movie_list_block (.jobj [("title", .jstr "Avatar"), ("year", .jstr "2009"),
        ("id", .jint 19995), ("rating", .jstr "7.6"), ("runtime", .jstr "162 min")]) = .ok ba ∧
      movie_list_block (.jobj [("title", .jstr "Inception"), ("year", .jstr "2010"),
        ("id", .jint 27205), ("rating", .jstr "8.4"), ("runtime", .jstr "148 min")]) = .ok bb ∧
      format_movie_list (.jarr [
        .jobj [("title", .jstr "Avatar"), ("year", .jstr "2009"),
          ("id", .jint 19995), ("rating", .jstr "7.6"), ("runtime", .jstr "162 min")],
        .jnull,
        .jobj [("title", .jstr "Inception"), ("year", .jstr "2010"),
          ("id", .jint 27205), ("rating", .jstr "8.4"), ("runtime", .jstr "148 min")]]) "Top" =
        .ok ("*" ++ "Top" ++ "*\n\n" ++ ba ++ bb) := by
  exact ⟨_, _, rfl, rfl, c6_null_entry_skipped "Top" _ _ _ _ rfl rfl rfl rfl⟩

/-- C7: starting from a store with no record for the `(user, movie)`
key, adding the same favorite twice leaves exactly one record for that
key; the first call reports success (`True`), the second reports
"already exists" (`False`). -/
theorem c7_favorite_unique_per_key (favs : List FavDoc) (uid : Int)
    (mid t1 t2 : JVal) (n1 n2 : String)
    (h : (favs.filter (fun d => decide (d.user_id = uid ∧ d.movie_id = mid))).length = 0) :
    (add_favorite favs uid mid t1 n1).2 = true ∧
    (add_favorite (add_favorite favs uid mid t1 n1).1 uid mid t2 n2).2 = false ∧
    ((add_favorite (add_favorite favs uid mid t1 n1).1 uid mid t2 n2).1.filter
      (fun d => decide (d.user_id = uid ∧ d.movie_id = mid))).length = 1 := by
  have hfe : favs.filter (fun d => decide (d.user_id = uid ∧ d.movie_id = mid)) = [] :=
    List.length_eq_zero.mp h
  have hlt : ¬ 0 < (favs.filter
      (fun d => decide (d.user_id = uid ∧ d.movie_id = mid))).length := by
    rw [h]
    exact Nat.lt_irrefl 0
  have h1 : add_favorite favs uid mid t1 n1 = (favs ++ [⟨uid, mid, t1, n1⟩], true) := by
    unfold add_favorite
    rw [if_neg hlt]
  have hcount : ((favs ++ [(⟨uid, mid, t1, n1⟩ : FavDoc)]).filter
      (fun d => decide (d.user_id = uid ∧ d.movie_id = mid))).length = 1 := by
    rw [List.filter_append, hfe]
    simp [List.filter]
  have hpos : 0 < ((favs ++ [(⟨uid, mid, t1, n1⟩ : FavDoc)]).filter
      (fun d => decide (d.user_id = uid ∧ d.movie_id = mid))).length := by
    rw [hcount]
    exact Nat.zero_lt_one
  have h2 : add_favorite (favs ++ [⟨uid, mid, t1, n1⟩]) uid mid t2 n2 =
      (favs ++ [⟨uid, mid, t1, n1⟩], false) := by
    unfold add_favorite
    rw [if_pos hpos]
  rw [h1]
  exact ⟨rfl, by rw [h2], by rw [h2]; exact hcount⟩

/-- C7 witness: the double-add on an initially empty store. -/
theorem c7_favorite_unique_per_key_witness :
    (add_favorite [] 1 (.jstr "27205") (.jstr "Inception") "2024-01-01 00:00:00").2 = true ∧
    (add_favorite (add_favorite [] 1 (.jstr "27205") (.jstr "Inception")
        "2024-01-01 00:00:00").1 1 (.jstr "27205") (.jstr "Inception")
        "2024-01-02 00:00:00").2 = false ∧
    ((add_favorite (add_favorite [] 1 (.jstr "27205") (.jstr "Inception")
        "2024-01-01 00:00:00").1 1 (.jstr "27205") (.jstr "Inception")
        "2024-01-02 00:00:00").1.filter
      (fun d => decide (d.user_id = 1 ∧ d.movie_id = .jstr "27205"))).length = 1 :=
  c7_favorite_unique_per_key [] 1 (.jstr "27205") (.jstr "Inception") (.jstr "Inception")
    "2024-01-01 00:00:00" "2024-01-02 00:00:00" (by decide)

/-- C8 counterexample: the claim says a non-admin invoking an admin-only
command causes no change to any persisted collection, but `add_user`
runs before the admin check: user 5 (not an admin) invoking
`show_stats` on an empty store is denied, yet the `users` collection
gains a document. -/
theorem c8_counterexample :
    is_admin (DB.mk [] [] [] []).admins [] 5 = false ∧
    (show_stats [] (fun _ => .jnull) ⟨[], [], [], []⟩ ⟨5, none, none, none⟩
        "2024-01-01 00:00:00").2 = "âŒ This command is for admins only." ∧
    (show_stats [] (fun _ => .jnull) ⟨[], [], [], []⟩ ⟨5, none, none, none⟩
        "2024-01-01 00:00:00").1.users ≠ (DB.mk [] [] [] []).users := by
  decide

/-- C8 (amended): a non-admin invoking `show_stats` or
`broadcast_message` is rejected with the neutral denial message, no
statistics are computed and no broadcast is sent, and the `searches`,
`favorites` and `admins` collections are untouched — but the `users`
collection is still upserted by the unconditional `add_user` that runs
before the admin check. -/
theorem c8_admin_denied_effects (cfg : List Int) (net : JVal → JVal)
    (deliver : Int → Bool) (db : DB) (u : TgUser) (text now : String)
    (h : is_admin db.admins cfg u.id = false) :
    (show_stats cfg net db u now).1 =
      { db with users := add_user db.users u now } ∧
    (show_stats cfg net db u now).2 = "âŒ This command is for admins only." ∧
    (broadcast_message cfg deliver db u text now).1 =
      { db with users := add_user db.users u now } ∧
    (broadcast_message cfg deliver db u text now).2 =
      ["âŒ TÊœÉªêœ± Cá´á´á´á´€É´á´… Iêœ± Fá´Ê€ Aá´…á´ÉªÉ´êœ± OÉ´ÊŸÊ. PÊŸá´‡á´€êœ±á´‡ Dá´É´\x27á´› CÊ€Ê ."] := by
  refine ⟨?_, ?_, ?_, ?_⟩ <;> simp [show_stats, broadcast_message, h]

/-- C8 witness: user 5, not in the admin collection `[7]` nor in the
config list, is denied by both commands and only the users upsert
happens. -/
theorem c8_admin_denied_effects_witness :
    (show_stats [] (fun _ => .jnull) ⟨[], [], [], [7]⟩ ⟨5, none, none, none⟩
        "2024-01-01 00:00:00").1 =
      { (⟨[], [], [], [7]⟩ : DB) with
        users := add_user [] ⟨5, none, none, none⟩ "2024-01-01 00:00:00" } ∧
    (show_stats [] (fun _ => .jnull) ⟨[], [], [], [7]⟩ ⟨5, none, none, none⟩
        "2024-01-01 00:00:00").2 = "âŒ This command is for admins only." ∧
    (broadcast_message [] (fun _ => true) ⟨[], [], [], [7]⟩ ⟨5, none, none, none⟩
        "/broadcast hi" "2024-01-01 00:00:00").1 =
      { (⟨[], [], [], [7]⟩ : DB) with
        users := add_user [] ⟨5, none, none, none⟩ "2024-01-01 00:00:00" } ∧
    (broadcast_message [] (fun _ => true) ⟨[], [], [], [7]⟩ ⟨5, none, none, none⟩
        "/broadcast hi" "2024-01-01 00:00:00").2 =
      ["âŒ TÊœÉªêœ± Cá´á´á´á´€É´á´… Iêœ± Fá´Ê€ Aá´…á´ÉªÉ´êœ± OÉ´ÊŸÊ. PÊŸá´‡á´€êœ±á´‡ Dá´É´\x27á´› CÊ€Ê ."] :=
  c8_admin_denied_effects [] (fun _ => .jnull) (fun _ => true) ⟨[], [], [], [7]⟩
    ⟨5, none, none, none⟩ "/broadcast hi" "2024-01-01 00:00:00" (by decide)

/-- C9: `get_favorites` returns exactly the user's favorites, projected
to `(movie_id, movie_title)`, ordered by `add_date` descending (most
recently added first; the `'%Y-%m-%d %H:%M:%S'` strings sort
chronologically) — an ordering the spec never states. -/
theorem c9_favorites_sorted_desc (favs : List FavDoc) (uid : Int) :
    ∃ docs : List FavDoc,
      docs.Perm (favs.filter (fun d => decide (d.user_id = uid))) ∧
      docs.Sorted (fun a b => b.add_date ≤ a.add_date) ∧
      get_favorites favs uid = docs.map (fun d => (d.movie_id, d.movie_title)) := by
  refine ⟨(favs.filter (fun d => decide (d.user_id = uid))).insertionSort
      (fun a b => b.add_date ≤ a.add_date), ?_, ?_, ?_⟩
  · exact List.perm_insertionSort _ _
  · haveI : IsTotal FavDoc (fun a b => b.add_date ≤ a.add_date) :=
      ⟨fun a b => le_total b.add_date a.add_date⟩
    haveI : IsTrans FavDoc (fun a b => b.add_date ≤ a.add_date) :=
      ⟨fun a b c hab hbc => le_trans hbc hab⟩
    exact List.sorted_insertionSort _ _
  · rfl

/-- When every one of the first five list entries has an `id` whose
detail fetch completes (successfully or as `None`), the comprehension
returns one element per entry, in order. -/
theorem fetch_details_forall2 (net : JVal → JVal) (ms : List JVal)
    (h : ∀ m ∈ ms, ∃ v d, pyIndex m "id" = .ok v ∧ get_movie_by_id v (net v) = .ok d) :
    ∃ l, fetch_details net ms = .ok l ∧
      List.Forall₂ (fun m d => ∃ v, pyIndex m "id" = .ok v ∧
        get_movie_by_id v (net v) = .ok d) ms l := by
  induction ms with
  | nil => exact ⟨[], rfl, List.Forall₂.nil⟩
  | cons m rest ih =>
    obtain ⟨v, d, hv, hd⟩ := h m (by simp)
    obtain ⟨l, hl, hf⟩ := ih (fun x hx => h x (by simp [hx]))
    refine ⟨d :: l, ?_, List.Forall₂.cons ⟨v, hv, hd⟩ hf⟩
    simp [fetch_details, hv, hd, hl, Bind.bind, Except.bind, pure, Except.pure]

/-- C10: in `get_trending_movies` and `get_popular_movies`, a per-item
detail fetch that fails (returns `None`) neither collapses the whole
operation to `NotFound` nor drops the entry: the result is a list of
length `min 5 (length of the list response)` whose `i`-th element is the
detail fetch of the `i`-th entry's id — `None` entries included. -/
theorem c10_per_item_failure_isolated (net : JVal → JVal)
    (fs : List (String × JVal)) (xs : List JVal)
    (h1 : List.lookup "results" fs = some (.jarr xs)) (h2 : xs ≠ [])
    (h3 : ∀ m ∈ xs.take 5, ∃ v d, pyIndex m "id" = .ok v ∧
      get_movie_by_id v (net v) = .ok d) :
    ∃ l, get_trending_movies net (.jobj fs) = .ok (.jarr l) ∧
      get_popular_movies net (.jobj fs) = .ok (.jarr l) ∧
      l.length = min 5 xs.length ∧
      List.Forall₂ (fun m d => ∃ v, pyIndex m "id" = .ok v ∧
        get_movie_by_id v (net v) = .ok d) (xs.take 5) l := by
  obtain ⟨l, hl, hf⟩ := fetch_details_forall2 net (xs.take 5) h3
  have hlen : l.length = min 5 xs.length := by
    have hh := hf.length_eq
    simpa [List.length_take] using hh.symm
  have hne : fs ≠ [] := by
    intro hh
    subst hh
    simp [List.lookup] at h1
  have ht : pyTruthy (.jobj fs) = true := by
    cases fs with
    | nil => exact absurd rfl hne
    | cons hd tl => rfl
  have htr : pyTruthy (.jarr xs) = true := by
    cases xs with
    | nil => exact absurd rfl h2
    | cons hd tl => rfl
  have hres : pyGet (.jobj fs) "results" .jnull = .ok (.jarr xs) := by
    simp [pyGet, h1]
  have hres2 : pyGet (.jobj fs) "results" (.jarr []) = .ok (.jarr xs) := by
    simp [pyGet, h1]
  refine ⟨l, ?_, ?_, hlen, hf⟩
  · simp [get_trending_movies, ht, htr, hres, hres2, pySliceTake, pyIter, hl,
      Bind.bind, Except.bind, pure, Except.pure]
  · simp [get_popular_movies, ht, htr, hres, hres2, pySliceTake, pyIter, hl,
      Bind.bind, Except.bind, pure, Except.pure]

/-- C10 witness: a two-entry list response where the detail fetch of id
1 succeeds and the fetch of id 2 yields no data: the output has two
elements, the second being `None`. -/
theorem c10_per_item_failure_isolated_witness :
    ∃ l, get_trending_movies
        (fun i => match i with | .jint 1 => .jobj [("id", .jint 1)] | _ => .jnull)
        (.jobj [("results", .jarr [.jobj [("id", .jint 1)], .jobj [("id", .jint 2)]])]) =
        .ok (.jarr l) ∧
      get_popular_movies
        (fun i => match i with | .jint 1 => .jobj [("id", .jint 1)] | _ => .jnull)
        (.jobj [("results", .jarr [.jobj [("id", .jint 1)], .jobj [("id", .jint 2)]])]) =
        .ok (.jarr l) ∧
      l.length = min 5 ([JVal.jobj [("id", .jint 1)], .jobj [("id", .jint 2)]].length) ∧
      List.Forall₂ (fun m d => ∃ v, pyIndex m "id" = .ok v ∧
        get_movie_by_id v
          ((fun i => match i with | .jint 1 => .jobj [("id", .jint 1)] | _ => .jnull) v) = .ok d)
        ([JVal.jobj [("id", .jint 1)], .jobj [("id", .jint 2)]].take 5) l :=
  c10_per_item_failure_isolated
    (fun i => match i with | .jint 1 => .jobj [("id", .jint 1)] | _ => .jnull)
    [("results", .jarr [.jobj [("id", .jint 1)], .jobj [("id", .jint 2)]])]
    [.jobj [("id", .jint 1)], .jobj [("id", .jint 2)]]
    (by decide) (by decide)
    (by
      intro m hm
      rw [List.take_of_length_le (by decide), List.mem_cons, List.mem_singleton] at hm
      rcases hm with rfl | rfl
      · exact ⟨.jint 1, .jobj [("id", .jint 1), ("title", .jstr "N/A"),
          ("year", .jstr "N/A"), ("runtime", .jstr "N/A"), ("genres", .jstr "N/A"),
          ("language", .jstr "N/A"), ("rating", .jstr "N/A"),
          ("overview", .jstr "No overview available."), ("poster_url", .jnull),
          ("trailer_url", .jnull),
          ("tmdb_link", .jstr "https://www.themoviedb.org/movie/1"),
          ("recommendations", .jarr [])], by decide, by decide⟩
      · exact ⟨.jint 2, .jnull, by decide, by decide⟩)

/-- C3 counterexample: on a raw detail response with `vote_average` the
double written `7.05`, the normalized record's rating is `"7.0"`, not
the `"7.1"` the claim asserts. -/
theorem c3_counterexample :
    (get_movie_by_id (.jint 550) (.jobj [("id", .jint 550),
        ("vote_average", .jfloat (mkRat 7937594343240499 1125899906842624))]) >>=
      fun d => pyIndex d "rating") = .ok (.jstr "7.0") ∧
    JVal.jstr "7.0" ≠ .jstr "7.1" := by
  exact ⟨by decide, by decide⟩
